import Mathlib

/-!
Shallow embedding of `src/benchmark-results/plot_performance.py`, a script that
loads a benchmark CSV into a table, prints grouped statistics, and renders two
chart files. The table is a `List Row`; numeric cells are rationals, and the
float values produced by pandas' division (which can be `inf`/`-inf`/`NaN`
when the denominator is zero) are modelled by `PVal`.
-/

namespace PlotPerformance

/-- A pandas float cell: either a finite rational or one of the IEEE-754
non-finite values that `Time(ns) / ArraySize` can produce when `ArraySize = 0`. -/
inductive PVal where
  | fin (q : ℚ)
  | posInf
  | negInf
  | nan
deriving DecidableEq

/-- Whether a `PVal` is a finite number. -/
def PVal.isFinite : PVal → Bool
  | .fin _ => true
  | _ => false

/-- The finite part of a `PVal`, if any. -/
def PVal.toFin : PVal → Option ℚ
  | .fin q => some q
  | _ => none

/-- IEEE-754-style division as performed by pandas on `Time(ns) / ArraySize`:
a zero denominator yields `inf`, `-inf` or `NaN` (never an exception), and a
nonzero denominator yields the exact quotient. -/
def pdiv (t n : ℚ) : PVal :=
  if n = 0 then
    if t = 0 then PVal.nan
    else if 0 < t then PVal.posInf
    else PVal.negInf
  else PVal.fin (t / n)

/-- One row of `benchmark_results.csv`: the six loaded columns plus the
`TimePerElement` column, which is absent (`none`) until
`generate_statistical_summary` assigns it. -/
structure Row where
  arraySize : ℕ
  inputType : String
  hasMajority : Bool
  time : ℚ
  comparisons : ℚ
  arrayAccess : ℚ
  timePerElement : Option PVal := none
deriving DecidableEq

/-- The arithmetic mean, as computed by pandas `.mean()` on a numeric column
(`sum / count`). -/
def mean (l : List ℚ) : ℚ := l.sum / (l.length : ℚ)

/-- The sample variance with `ddof = 1`, as used by pandas `.std()`
(`std = sqrt (sampleVar)`); `none` models the `NaN` that pandas prints for a
group with fewer than two rows. Equality of `sampleVar` values is equivalent
to equality of the printed standard deviations, since `sqrt` is injective on
nonnegative reals. -/
def sampleVar (l : List ℚ) : Option ℚ :=
  if l.length ≤ 1 then none
  else some ((l.map (fun x => (x - mean l) ^ 2)).sum / ((l.length - 1 : ℕ) : ℚ))

/-- pandas `Series.unique()`: the distinct values in order of first
appearance. -/
def pdUnique {α : Type} [DecidableEq α] : List α → List α
  | [] => []
  | a :: l => a :: pdUnique (l.filter (fun b => b ≠ a))
termination_by l => l.length
decreasing_by
  simp only [List.length_cons]
  exact Nat.lt_succ_of_le (List.length_filter_le _ _)

/-- The distinct values of a column in ascending order: Python's
`sorted(series.unique())`, and also the index produced by `groupby` (which
sorts its keys). -/
def sortedUnique {α : Type} [DecidableEq α] [LinearOrder α] (l : List α) : List α :=
  List.insertionSort (· ≤ ·) (pdUnique l)

/-- The `{mean, std, min, max}` aggregate that `.agg(['mean','std','min','max'])`
computes for one group; `std` is represented by the sample variance `var`
(the printed value is its square root), and `min`/`max` are `⊤`/`⊥` only on an
empty group, which `groupby` never produces. -/
structure Agg where
  mean : ℚ
  var : Option ℚ
  min : WithTop ℚ
  max : WithBot ℚ
deriving DecidableEq

/-- The aggregate of one group's `Time(ns)` values. -/
def aggTime (l : List ℚ) : Agg :=
  { mean := mean l, var := sampleVar l, min := l.minimum, max := l.maximum }

/-- The mean of a column of pandas floats, with IEEE-754 semantics: any `NaN`,
or infinities of both signs, make the mean `NaN`; otherwise a single-signed
infinity dominates; otherwise it is the finite arithmetic mean. -/
def pvalMean (l : List PVal) : PVal :=
  if PVal.nan ∈ l then PVal.nan
  else if PVal.posInf ∈ l ∧ PVal.negInf ∈ l then PVal.nan
  else if PVal.posInf ∈ l then PVal.posInf
  else if PVal.negInf ∈ l then PVal.negInf
  else PVal.fin (mean (l.filterMap PVal.toFin))

/-- The numerator and squared denominator of the Pearson correlation
coefficient computed by `df[['ArraySize','Time(ns)']].corr().iloc[0,1]`:
the coefficient itself is `covSum / sqrt (second component)`, so the pair
determines it, and equal pairs mean equal coefficients. -/
def sqDevSum (l : List ℚ) : ℚ := (l.map (fun x => (x - mean l) ^ 2)).sum

/-- Sum of products of deviations of the two coordinates. -/
def covSum (ps : List (ℚ × ℚ)) : ℚ :=
  (ps.map (fun p =>
    (p.1 - mean (ps.map Prod.fst)) * (p.2 - mean (ps.map Prod.snd)))).sum

/-- The pair (Pearson numerator, squared Pearson denominator); see `sqDevSum`. -/
def corrPair (ps : List (ℚ × ℚ)) : ℚ × ℚ :=
  (covSum ps, sqDevSum (ps.map Prod.fst) * sqDevSum (ps.map Prod.snd))

/-- `df['TimePerElement'] = df['Time(ns)'] / df['ArraySize']` applied to one
row (line 136 of the script): the single in-place mutation of the table. -/
def addTPE (r : Row) : Row :=
  { r with timePerElement := some (pdiv r.time (r.arraySize : ℚ)) }

/-- Reading the `TimePerElement` cell of a row (the column is always present
when it is read; a missing cell would be pandas `NaN`). -/
def tpeVal (r : Row) : PVal := r.timePerElement.getD PVal.nan

/-- Everything `generate_statistical_summary` prints, in print order:
record count, sorted distinct sizes, per-size `Time(ns)` aggregates,
per-`InputType` `(mean, std)` of `Time(ns)`, the correlation pair, and the
per-size mean `TimePerElement`. -/
structure Summary where
  totalRecords : ℕ
  sizesSorted : List ℕ
  timeBySize : List (ℕ × Agg)
  timeByDist : List (String × ℚ × Option ℚ)
  corr : ℚ × ℚ
  effBySize : List (ℕ × PVal)
deriving DecidableEq

/-- `generate_statistical_summary` (lines 111-139): returns what it prints and
the table it leaves behind, which differs from its input only by the
`TimePerElement` column assigned on line 136. -/
def generate_statistical_summary (df : List Row) : Summary × List Row :=
  let df1 := df.map addTPE
  ({ totalRecords := df.length
   , sizesSorted := sortedUnique (df.map (fun r => r.arraySize))
   , timeBySize := (sortedUnique (df.map (fun r => r.arraySize))).map
       (fun k => (k, aggTime ((df.filter (fun r => r.arraySize = k)).map (fun r => r.time))))
   , timeByDist := (sortedUnique (df.map (fun r => r.inputType))).map
       (fun d =>
         (d, mean ((df.filter (fun r => r.inputType = d)).map (fun r => r.time)),
          sampleVar ((df.filter (fun r => r.inputType = d)).map (fun r => r.time))))
   , corr := corrPair (df.map (fun r => ((r.arraySize : ℚ), r.time)))
   , effBySize := (sortedUnique (df1.map (fun r => r.arraySize))).map
       (fun k => (k, pvalMean ((df1.filter (fun r => r.arraySize = k)).map tpeVal)))
   }, df1)

/-- One `grouped = subset.groupby('ArraySize')[col].mean()` series as plotted
by `plt.plot(grouped.index, grouped.values, ...)`: points (size, group mean)
in ascending size order. -/
def seriesBy (rows : List Row) (val : Row → ℚ) : List (ℕ × ℚ) :=
  (sortedUnique (rows.map (fun r => r.arraySize))).map
    (fun k => (k, mean ((rows.filter (fun r => r.arraySize = k)).map val)))

/-- The data content of the four panels drawn by `create_performance_plots`
(lines 23-85) and the image file it saves. -/
structure PlotsOut where
  panelA : List (String × List (ℕ × ℚ))
  panelB : List (String × List (ℕ × ℚ))
  panelC : List (Bool × List (ℕ × ℚ))
  panelD : Option (List (String × List ℚ))
  image : String
deriving DecidableEq

/-- `create_performance_plots`: Panel A iterates `df['InputType'].unique()`;
Panel B iterates the fixed list `['RANDOM','SORTED','WORST_CASE']`, skipping a
label when `len(subset) > 0` fails; Panel C iterates `[True, False]`; Panel D
draws a boxplot of `Time(ns)` by `InputType` over the rows with
`ArraySize == 10000`, and draws nothing when there are none. -/
def create_performance_plots (df : List Row) : PlotsOut :=
  { panelA := (pdUnique (df.map (fun r => r.inputType))).map
      (fun d => (d, seriesBy (df.filter (fun r => r.inputType = d)) (fun r => r.time)))
  , panelB := (["RANDOM", "SORTED", "WORST_CASE"]).filterMap
      (fun d =>
        if 0 < (df.filter (fun r => r.inputType = d)).length then
          some (d, seriesBy (df.filter (fun r => r.inputType = d)) (fun r => r.comparisons))
        else none)
  , panelC := ([true, false]).map
      (fun b => (b, seriesBy (df.filter (fun r => r.hasMajority = b)) (fun r => r.arrayAccess)))
  , panelD :=
      if 0 < (df.filter (fun r => r.arraySize = 10000)).length then
        some ((pdUnique ((df.filter (fun r => r.arraySize = 10000)).map (fun r => r.inputType))).map
          (fun d => (d, ((df.filter (fun r => r.arraySize = 10000)).filter
              (fun r => r.inputType = d)).map (fun r => r.time))))
      else none
  , image := "performance_analysis.png" }

/-- The two curves drawn by `create_theoretical_validation` (lines 87-109) and
the image file it saves. The x-coordinates of both curves are
`subset['ArraySize'].unique()` (first-appearance order); the actual curve's
y-values are `subset.groupby('ArraySize')['Time(ns)'].mean().values`, which
are in ascending-size order, and `plt.plot` pairs the two lists positionally
(`List.zip`). -/
structure ValOut where
  refCurve : List (ℕ × ℚ)
  actualCurve : List (ℕ × ℚ)
  image : String
deriving DecidableEq

/-- `create_theoretical_validation`: reference curve `n ↦ n * 100` over the
distinct RANDOM sizes, actual curve the positional pairing of those sizes with
the sorted-order group means. -/
def create_theoretical_validation (df : List Row) : ValOut :=
  { refCurve := (pdUnique ((df.filter (fun r => r.inputType = "RANDOM")).map
        (fun r => r.arraySize))).map (fun n => (n, (n : ℚ) * 100))
  , actualCurve := (pdUnique ((df.filter (fun r => r.inputType = "RANDOM")).map
        (fun r => r.arraySize))).zip
      ((sortedUnique ((df.filter (fun r => r.inputType = "RANDOM")).map
          (fun r => r.arraySize))).map
        (fun k => mean (((df.filter (fun r => r.inputType = "RANDOM")).filter
            (fun r => r.arraySize = k)).map (fun r => r.time))))
  , image := "theory_vs_practice.png" }

/-- The fixed input path of the script. -/
def csv_file : String := "benchmark_results.csv"

/-- `load_and_analyze_data` (lines 7-21) over an abstract filesystem: `none`
means `benchmark_results.csv` does not exist, in which case the function
prints an error naming the file and returns the `None` sentinel; otherwise it
prints the load diagnostics and returns the table. -/
def load_and_analyze_data (fs : Option (List Row)) : List String × Option (List Row) :=
  match fs with
  | none => (["Error: " ++ csv_file ++ " not found. Run benchmarks first."], none)
  | some df => (["Data loaded successfully:", "Total records: " ++ toString df.length], some df)

/-- The observable outcome of one run of the script: console lines, image
files written, and the final in-memory table (`none` when loading failed). -/
structure RunOut where
  printed : List String
  images : List String
  finalTable : Option (List Row)
deriving DecidableEq

/-- The `__main__` block (lines 141-150): load, and if a table came back, run
the summarizer (which appends `TimePerElement`), then both plotting functions
on the resulting table; each plotting function saves its image. -/
def runPipeline (fs : Option (List Row)) : RunOut :=
  match load_and_analyze_data fs with
  | (msgs, none) => { printed := msgs, images := [], finalTable := none }
  | (msgs, some df) =>
      let s := generate_statistical_summary df
      let p := create_performance_plots s.2
      let v := create_theoretical_validation s.2
      { printed := msgs, images := [p.image, v.image], finalTable := some s.2 }

/-- The six loaded columns of a row, without the derived column. -/
def origCols (r : Row) : ℕ × String × Bool × ℚ × ℚ × ℚ :=
  (r.arraySize, r.inputType, r.hasMajority, r.time, r.comparisons, r.arrayAccess)

/-! ### Helper lemmas -/

theorem mem_pdUnique {α : Type} [DecidableEq α] (a : α) :
    ∀ l : List α, a ∈ pdUnique l ↔ a ∈ l := by
  intro l
  induction l using pdUnique.induct with
  | case1 => simp [pdUnique]
  | case2 b l ih =>
    by_cases hab : a = b
    · subst hab
      simp [pdUnique]
    · simp only [pdUnique, List.mem_cons, ih, List.mem_filter, decide_eq_true_eq]
      constructor
      · rintro (h | ⟨h, -⟩)
        · exact absurd h hab
        · exact Or.inr h
      · rintro (h | h)
        · exact absurd h hab
        · exact Or.inr ⟨h, hab⟩

theorem nodup_pdUnique {α : Type} [DecidableEq α] :
    ∀ l : List α, (pdUnique l).Nodup := by
  intro l
  induction l using pdUnique.induct with
  | case1 => simp [pdUnique]
  | case2 b l ih =>
    simp only [pdUnique, List.nodup_cons]
    refine ⟨?_, ih⟩
    rw [mem_pdUnique]
    simp [List.mem_filter]

theorem pdUnique_perm {α : Type} [DecidableEq α] {l l' : List α} (h : l.Perm l') :
    (pdUnique l).Perm (pdUnique l') := by
  rw [List.perm_ext_iff_of_nodup (nodup_pdUnique l) (nodup_pdUnique l')]
  intro a
  rw [mem_pdUnique, mem_pdUnique]
  exact h.mem_iff

theorem mem_sortedUnique {α : Type} [DecidableEq α] [LinearOrder α] (a : α) (l : List α) :
    a ∈ sortedUnique l ↔ a ∈ l := by
  rw [sortedUnique, (List.perm_insertionSort _ _).mem_iff, mem_pdUnique]

theorem sorted_sortedUnique {α : Type} [DecidableEq α] [LinearOrder α] (l : List α) :
    (sortedUnique l).Sorted (· ≤ ·) :=
  List.sorted_insertionSort _ _

theorem sortedUnique_perm_eq {α : Type} [DecidableEq α] [LinearOrder α]
    {l l' : List α} (h : l.Perm l') : sortedUnique l = sortedUnique l' :=
  List.eq_of_perm_of_sorted
    ((List.perm_insertionSort _ _).trans
      ((pdUnique_perm h).trans (List.perm_insertionSort _ _).symm))
    (sorted_sortedUnique l) (sorted_sortedUnique l')

theorem mean_perm {l l' : List ℚ} (h : l.Perm l') : mean l = mean l' := by
  simp [mean, h.sum_eq, h.length_eq]

theorem sampleVar_perm {l l' : List ℚ} (h : l.Perm l') : sampleVar l = sampleVar l' := by
  have hm : mean l = mean l' := mean_perm h
  have hs : (l.map (fun x => (x - mean l') ^ 2)).sum
      = (l'.map (fun x => (x - mean l') ^ 2)).sum := (h.map _).sum_eq
  simp only [sampleVar, h.length_eq, hm, hs]

theorem minimum_perm {l l' : List ℚ} (h : l.Perm l') : l.minimum = l'.minimum := by
  rcases hl : l.minimum with _ | m
  · have hnil : l = [] := List.minimum_eq_top.mp hl
    subst hnil
    rw [h.symm.eq_nil]
    rfl
  · have h1 : m ∈ l ∧ ∀ a ∈ l, m ≤ a := List.minimum_eq_coe_iff.mp hl
    have h2 : l'.minimum = (m : WithTop ℚ) := List.minimum_eq_coe_iff.mpr
      ⟨h.mem_iff.mp h1.1, fun a ha => h1.2 a (h.mem_iff.mpr ha)⟩
    exact h2.symm

theorem maximum_perm {l l' : List ℚ} (h : l.Perm l') : l.maximum = l'.maximum := by
  rcases hl : l.maximum with _ | m
  · have hnil : l = [] := List.maximum_eq_bot.mp hl
    subst hnil
    rw [h.symm.eq_nil]
    rfl
  · have h1 : m ∈ l ∧ ∀ a ∈ l, a ≤ m := List.maximum_eq_coe_iff.mp hl
    have h2 : l'.maximum = (m : WithBot ℚ) := List.maximum_eq_coe_iff.mpr
      ⟨h.mem_iff.mp h1.1, fun a ha => h1.2 a (h.mem_iff.mpr ha)⟩
    exact h2.symm

theorem aggTime_perm {l l' : List ℚ} (h : l.Perm l') : aggTime l = aggTime l' := by
  simp only [aggTime, mean_perm h, sampleVar_perm h, minimum_perm h, maximum_perm h]

theorem pvalMean_perm {l l' : List PVal} (h : l.Perm l') : pvalMean l = pvalMean l' := by
  have hm : ∀ a : PVal, a ∈ l ↔ a ∈ l' := fun a => h.mem_iff
  have hf : (l.filterMap PVal.toFin).Perm (l'.filterMap PVal.toFin) := h.filterMap _
  simp only [pvalMean, hm, mean_perm hf]

theorem sqDevSum_perm {l l' : List ℚ} (h : l.Perm l') : sqDevSum l = sqDevSum l' := by
  have hm : mean l = mean l' := mean_perm h
  have hs : (l.map (fun x => (x - mean l') ^ 2)).sum
      = (l'.map (fun x => (x - mean l') ^ 2)).sum := (h.map _).sum_eq
  simp only [sqDevSum, hm, hs]

theorem covSum_perm {ps ps' : List (ℚ × ℚ)} (h : ps.Perm ps') : covSum ps = covSum ps' := by
  have h1 : mean (ps.map Prod.fst) = mean (ps'.map Prod.fst) := mean_perm (h.map _)
  have h2 : mean (ps.map Prod.snd) = mean (ps'.map Prod.snd) := mean_perm (h.map _)
  have hs : (ps.map (fun p =>
        (p.1 - mean (ps'.map Prod.fst)) * (p.2 - mean (ps'.map Prod.snd)))).sum
      = (ps'.map (fun p =>
        (p.1 - mean (ps'.map Prod.fst)) * (p.2 - mean (ps'.map Prod.snd)))).sum :=
    (h.map _).sum_eq
  simp only [covSum, h1, h2, hs]

theorem corrPair_perm {ps ps' : List (ℚ × ℚ)} (h : ps.Perm ps') : corrPair ps = corrPair ps' := by
  simp only [corrPair, covSum_perm h, sqDevSum_perm (h.map Prod.fst),
    sqDevSum_perm (h.map Prod.snd)]

theorem pvalMean_map_fin (qs : List ℚ) : pvalMean (qs.map PVal.fin) = PVal.fin (mean qs) := by
  have h1 : PVal.nan ∉ qs.map PVal.fin := by simp
  have h2 : PVal.posInf ∉ qs.map PVal.fin := by simp
  have h3 : PVal.negInf ∉ qs.map PVal.fin := by simp
  rw [pvalMean, if_neg h1, if_neg (fun hc => h2 hc.1), if_neg h2, if_neg h3]
  congr 1
  congr 1
  rw [List.filterMap_map]
  have he : PVal.toFin ∘ PVal.fin = some := rfl
  rw [he, List.filterMap_some]

theorem tpe_group (df : List Row) (k : ℕ) :
    ((df.map addTPE).filter (fun r => r.arraySize = k)).map tpeVal
      = (df.filter (fun s => s.arraySize = k)).map
          (fun s => pdiv s.time (s.arraySize : ℚ)) := by
  induction df with
  | nil => rfl
  | cons s df ih =>
    by_cases hs : s.arraySize = k
    · simp [List.filter_cons, addTPE, hs, ih, tpeVal]
    · simp [List.filter_cons, addTPE, hs, ih]

/-! ### Claims -/

/-- C2: when `benchmark_results.csv` does not exist, the loader prints a single
message that contains the file name, the run returns the `none` sentinel table
without raising, and no image file is written. -/
theorem c2_missing_input :
    (runPipeline none).images = [] ∧
    (runPipeline none).finalTable = none ∧
    ∃ m pre post, (runPipeline none).printed = [m] ∧
      m.toList = pre ++ csv_file.toList ++ post := by
  refine ⟨rfl, rfl,
    "Error: " ++ csv_file ++ " not found. Run benchmarks first.",
    "Error: ".toList, " not found. Run benchmarks first.".toList, rfl, ?_⟩
  decide

/-- C6: a full run leaves the loaded table unchanged except for the
`TimePerElement` column appended by the summarizer: the final table is exactly
the original rows with that one cell set, the projection to the six loaded
columns is unchanged, and the new cell holds `Time(ns) / ArraySize`. -/
theorem c6_frame (df : List Row) :
    (runPipeline (some df)).finalTable = some (df.map addTPE) ∧
    (df.map addTPE).map origCols = df.map origCols ∧
    ∀ r ∈ df, (addTPE r).timePerElement = some (pdiv r.time (r.arraySize : ℚ)) := by
  refine ⟨rfl, ?_, fun r _ => rfl⟩
  rw [List.map_map]
  rfl

/-- C8: the Pearson correlation the summarizer computes is symmetric: the
(numerator, squared denominator) pair — which determines the coefficient —
is the same for `(ArraySize, Time)` pairs and for the swapped
`(Time, ArraySize)` pairs. -/
theorem c8_corr_symm (df : List Row) :
    corrPair ((df.map (fun r => ((r.arraySize : ℚ), r.time))).map Prod.swap)
      = (generate_statistical_summary df).1.corr := by
  have key : ∀ ps : List (ℚ × ℚ), corrPair (ps.map Prod.swap) = corrPair ps := by
    intro ps
    have hfst : (ps.map Prod.swap).map Prod.fst = ps.map Prod.snd := by
      rw [List.map_map]; rfl
    have hsnd : (ps.map Prod.swap).map Prod.snd = ps.map Prod.fst := by
      rw [List.map_map]; rfl
    unfold corrPair covSum
    rw [hfst, hsnd]
    refine Prod.ext ?_ (mul_comm _ _)
    rw [List.map_map]
    refine congrArg List.sum (List.map_congr_left fun p _ => ?_)
    exact mul_comm _ _
  exact key _

/-- A table whose RANDOM rows have distinct sizes in descending first-appearance
order: size 1000 (time 5 ns) before size 100 (time 7 ns). -/
def c1df : List Row :=
  [{ arraySize := 1000, inputType := "RANDOM", hasMajority := true,
     time := 5, comparisons := 0, arrayAccess := 0 },
   { arraySize := 100, inputType := "RANDOM", hasMajority := true,
     time := 7, comparisons := 0, arrayAccess := 0 }]

/-- C1: refuted as stated. On `c1df` the theoretical validator's actual curve
pairs x-coordinates taken from `unique()` (first-appearance order
`[1000, 100]`) with y-values from `groupby(...).mean()` (ascending-size order
`[7, 5]`), so the plotted point at x = 1000 carries y = 7 even though the mean
`Time(ns)` of the RANDOM rows with `ArraySize = 1000` is 5, and the point at
x = 100 carries y = 5 though the mean there is 7. The reference curve is
paired consistently. -/
theorem c1_actual_curve_mispaired :
    (create_theoretical_validation c1df).actualCurve = [(1000, 7), (100, 5)] ∧
    mean ((c1df.filter (fun r => r.arraySize = 1000)).map (fun r => r.time)) = 5 ∧
    mean ((c1df.filter (fun r => r.arraySize = 100)).map (fun r => r.time)) = 7 ∧
    (create_theoretical_validation c1df).refCurve = [(1000, 100000), (100, 10000)] := by
  refine ⟨?_, ?_, ?_, ?_⟩ <;>
    norm_num [create_theoretical_validation, c1df, sortedUnique, pdUnique, mean,
      List.insertionSort, List.orderedInsert, List.filter_cons]

/-- C5: empty subsets are skipped silently by the chart renderer: an
`InputType` from the fixed Panel B list with no matching rows contributes no
series, and when no row has `ArraySize = 10000` Panel D has no boxplot
content. -/
theorem c5_empty_subsets (df : List Row) (d : String)
    (hB : df.filter (fun r => r.inputType = d) = [])
    (hD : df.filter (fun r => r.arraySize = 10000) = []) :
    d ∉ (create_performance_plots df).panelB.map Prod.fst ∧
    (create_performance_plots df).panelD = none := by
  constructor
  · intro hmem
    simp only [create_performance_plots, List.mem_map, List.mem_filterMap] at hmem
    obtain ⟨p, ⟨d', hd', hif⟩, hfst⟩ := hmem
    by_cases hc : 0 < (df.filter (fun r => r.inputType = d')).length
    · rw [if_pos hc] at hif
      injection hif with hif
      subst hif
      subst hfst
      rw [hB] at hc
      exact absurd hc (by simp)
    · rw [if_neg hc] at hif
      exact Option.noConfusion hif
  · simp only [create_performance_plots]
    rw [hD]
    simp

/-- C10: when the table has no RANDOM rows, the theoretical validator still
completes: both of its curves are empty, and `theory_vs_practice.png` is still
among the images a full run writes. -/
theorem c10_no_random_rows (df : List Row)
    (h : df.filter (fun r => r.inputType = "RANDOM") = []) :
    (create_theoretical_validation df).refCurve = [] ∧
    (create_theoretical_validation df).actualCurve = [] ∧
    "theory_vs_practice.png" ∈ (runPipeline (some df)).images := by
  refine ⟨?_, ?_, ?_⟩
  · simp only [create_theoretical_validation]
    rw [h]
    simp [pdUnique]
  · simp only [create_theoretical_validation]
    rw [h]
    simp [pdUnique]
  · have himg : (runPipeline (some df)).images
        = ["performance_analysis.png", "theory_vs_practice.png"] := rfl
    rw [himg]
    simp

/-- C7: on a non-empty table the summarizer reports a record count equal to
the number of rows, and then the distinct `ArraySize` values in ascending
order: its size list is sorted and contains exactly the sizes occurring in
the table. -/
theorem c7_count_then_sorted_sizes (df : List Row) (h : df ≠ []) :
    (generate_statistical_summary df).1.totalRecords = df.length ∧
    ((generate_statistical_summary df).1.sizesSorted).Sorted (· ≤ ·) ∧
    ∀ n : ℕ, n ∈ (generate_statistical_summary df).1.sizesSorted ↔
      n ∈ df.map (fun r => r.arraySize) := by
  exact ⟨rfl, sorted_sortedUnique _, fun n => mem_sortedUnique n _⟩

/-- C9: the `TimePerElement` computation is not guarded against a zero
`ArraySize`: the run still completes and produces its table, the cell for a
zero-size row is a non-finite value (`+inf` whenever its `Time(ns)` is
positive; `NaN` only for a zero time), and every row with a nonzero size is
computed normally as `Time(ns) / ArraySize`. -/
theorem c9_division_by_zero_unguarded (df : List Row) (r r' : Row)
    (hr : r ∈ df) (hr' : r' ∈ df) (h0 : r.arraySize = 0) (h1 : 0 < r'.arraySize) :
    (runPipeline (some df)).finalTable = some (df.map addTPE) ∧
    (∃ v, (addTPE r).timePerElement = some v ∧ v.isFinite = false) ∧
    (0 < r.time → (addTPE r).timePerElement = some PVal.posInf) ∧
    (addTPE r').timePerElement = some (PVal.fin (r'.time / (r'.arraySize : ℚ))) := by
  have hz : ((r.arraySize : ℚ)) = 0 := by rw [h0]; norm_num
  have hz' : ((r'.arraySize : ℚ)) ≠ 0 := Nat.cast_ne_zero.mpr h1.ne'
  refine ⟨rfl, ?_, ?_, ?_⟩
  · refine ⟨pdiv r.time (r.arraySize : ℚ), rfl, ?_⟩
    by_cases ht : r.time = 0
    · simp [pdiv, hz, ht, PVal.isFinite]
    · by_cases ht' : 0 < r.time
      · simp [pdiv, hz, ht, ht', PVal.isFinite]
      · simp [pdiv, hz, ht, ht', PVal.isFinite]
  · intro ht
    simp [addTPE, pdiv, hz, ht.ne', ht]
  · simp [addTPE, pdiv, hz']

/-- C3: for every row with `ArraySize = n > 0` and `Time(ns) = t` the derived
`TimePerElement` cell equals `t / n`, and the summarizer's printed efficiency
series gives, for each distinct `ArraySize` value `k`, the mean of the
`t / n` values of the rows with that size (finitely, when all sizes are
positive). -/
theorem c3_time_per_element (df : List Row) (r : Row) (hr : r ∈ df)
    (hpos : 0 < r.arraySize) (hall : ∀ s ∈ df, 0 < s.arraySize) :
    (generate_statistical_summary df).2 = df.map addTPE ∧
    (addTPE r).timePerElement = some (PVal.fin (r.time / (r.arraySize : ℚ))) ∧
    ∀ k v, (k, v) ∈ (generate_statistical_summary df).1.effBySize →
      v = PVal.fin (mean ((df.filter (fun s => s.arraySize = k)).map
        (fun s => s.time / (s.arraySize : ℚ)))) := by
  have hzr : ((r.arraySize : ℚ)) ≠ 0 := Nat.cast_ne_zero.mpr hpos.ne'
  refine ⟨rfl, by simp [addTPE, pdiv, hzr], ?_⟩
  intro k v hkv
  have heff : (generate_statistical_summary df).1.effBySize
      = (sortedUnique ((df.map addTPE).map (fun s => s.arraySize))).map
          (fun k => (k, pvalMean (((df.map addTPE).filter
            (fun s => s.arraySize = k)).map tpeVal))) := rfl
  rw [heff] at hkv
  obtain ⟨k', hk', heq⟩ := List.mem_map.mp hkv
  rw [Prod.mk.injEq] at heq
  obtain ⟨rfl, rfl⟩ := heq
  have hmaps : (df.map addTPE).map (fun s => s.arraySize)
      = df.map (fun s => s.arraySize) := by
    rw [List.map_map]; rfl
  rw [hmaps, mem_sortedUnique] at hk'
  obtain ⟨s0, hs0, hk0⟩ := List.mem_map.mp hk'
  have hkpos : 0 < k' := hk0 ▸ hall s0 hs0
  rw [tpe_group]
  have hgrp : (df.filter (fun s => s.arraySize = k')).map
        (fun s => pdiv s.time (s.arraySize : ℚ))
      = ((df.filter (fun s => s.arraySize = k')).map
          (fun s => s.time / (s.arraySize : ℚ))).map PVal.fin := by
    rw [List.map_map]
    refine List.map_congr_left fun s hs => ?_
    have hsk : s.arraySize = k' := by
      simpa using (List.mem_filter.mp hs).2
    have hzs : ((s.arraySize : ℚ)) ≠ 0 :=
      Nat.cast_ne_zero.mpr (by rw [hsk]; exact hkpos.ne')
    simp [pdiv, hzs, Function.comp]
  rw [hgrp, pvalMean_map_fin]

/-- C4: the summarizer's printed output is invariant under permuting the rows
of the table: every aggregate it prints — the record count, sorted sizes, the
per-size mean/std/min/max of `Time(ns)`, the per-`InputType` aggregates, the
correlation, and the per-size mean `TimePerElement` — is the same for the
permuted table. -/
theorem c4_order_independence (df df' : List Row) (h : df.Perm df') :
    (generate_statistical_summary df).1 = (generate_statistical_summary df').1 := by
  have h1 : (df.map addTPE).Perm (df'.map addTPE) := h.map _
  simp only [generate_statistical_summary, Summary.mk.injEq]
  refine ⟨h.length_eq, sortedUnique_perm_eq (h.map _), ?_, ?_, corrPair_perm (h.map _), ?_⟩
  · rw [sortedUnique_perm_eq (h.map (fun r => r.arraySize))]
    refine List.map_congr_left fun k _ => ?_
    exact congrArg (fun a => (k, a)) (aggTime_perm ((h.filter _).map _))
  · rw [sortedUnique_perm_eq (h.map (fun r => r.inputType))]
    refine List.map_congr_left fun d _ => ?_
    have hg : ((df.filter (fun r => r.inputType = d)).map (fun r => r.time)).Perm
        ((df'.filter (fun r => r.inputType = d)).map (fun r => r.time)) :=
      (h.filter _).map _
    rw [mean_perm hg, sampleVar_perm hg]
  · rw [sortedUnique_perm_eq (h1.map (fun r => r.arraySize))]
    refine List.map_congr_left fun k _ => ?_
    exact congrArg (fun a => (k, a)) (pvalMean_perm ((h1.filter _).map _))

/-! ### Witnesses -/

def c3wrow : Row :=
  { arraySize := 10, inputType := "RANDOM", hasMajority := true,
    time := 5, comparisons := 1, arrayAccess := 1 }

theorem c3_time_per_element_witness :
    (0 < c3wrow.arraySize) ∧ (∀ s ∈ [c3wrow], 0 < s.arraySize) ∧
    (addTPE c3wrow).timePerElement
      = some (PVal.fin (c3wrow.time / (c3wrow.arraySize : ℚ))) :=
  ⟨by decide, by decide,
    (c3_time_per_element [c3wrow] c3wrow (by simp) (by decide) (by decide)).2.1⟩

def c4r1 : Row :=
  { arraySize := 100, inputType := "RANDOM", hasMajority := true,
    time := 3, comparisons := 1, arrayAccess := 2 }

def c4r2 : Row :=
  { arraySize := 200, inputType := "SORTED", hasMajority := false,
    time := 4, comparisons := 2, arrayAccess := 3 }

theorem c4_order_independence_witness :
    ([c4r1, c4r2].Perm [c4r2, c4r1]) ∧
    (generate_statistical_summary [c4r1, c4r2]).1
      = (generate_statistical_summary [c4r2, c4r1]).1 :=
  ⟨List.Perm.swap c4r2 c4r1 [],
    c4_order_independence _ _ (List.Perm.swap c4r2 c4r1 [])⟩

def c5wrow : Row :=
  { arraySize := 5, inputType := "SORTED", hasMajority := true,
    time := 2, comparisons := 1, arrayAccess := 1 }

theorem c5_empty_subsets_witness :
    ([c5wrow].filter (fun r => r.inputType = "RANDOM") = []) ∧
    ([c5wrow].filter (fun r => r.arraySize = 10000) = []) ∧
    ("RANDOM" ∉ (create_performance_plots [c5wrow]).panelB.map Prod.fst ∧
      (create_performance_plots [c5wrow]).panelD = none) :=
  ⟨by decide, by decide, c5_empty_subsets [c5wrow] "RANDOM" (by decide) (by decide)⟩

def c7wrow : Row :=
  { arraySize := 3, inputType := "RANDOM", hasMajority := false,
    time := 9, comparisons := 2, arrayAccess := 2 }

theorem c7_count_then_sorted_sizes_witness :
    ([c7wrow] ≠ []) ∧
    (generate_statistical_summary [c7wrow]).1.totalRecords = [c7wrow].length :=
  ⟨List.cons_ne_nil c7wrow [],
    (c7_count_then_sorted_sizes [c7wrow] (List.cons_ne_nil c7wrow [])).1⟩

def c9wrow0 : Row :=
  { arraySize := 0, inputType := "RANDOM", hasMajority := false,
    time := 5, comparisons := 1, arrayAccess := 1 }

def c9wrow1 : Row :=
  { arraySize := 10, inputType := "SORTED", hasMajority := true,
    time := 8, comparisons := 2, arrayAccess := 2 }

theorem c9_division_by_zero_unguarded_witness :
    (c9wrow0.arraySize = 0) ∧ (0 < c9wrow1.arraySize) ∧ (0 < c9wrow0.time) ∧
    (addTPE c9wrow0).timePerElement = some PVal.posInf :=
  ⟨rfl, by decide, by decide,
    (c9_division_by_zero_unguarded [c9wrow0, c9wrow1] c9wrow0 c9wrow1
      (by simp) (by simp) rfl (by decide)).2.2.1 (by decide)⟩

def c10wrow : Row :=
  { arraySize := 5, inputType := "SORTED", hasMajority := true,
    time := 2, comparisons := 1, arrayAccess := 1 }

theorem c10_no_random_rows_witness :
    ([c10wrow].filter (fun r => r.inputType = "RANDOM") = []) ∧
    (create_theoretical_validation [c10wrow]).refCurve = [] :=
  ⟨by decide, (c10_no_random_rows [c10wrow] (by decide)).1⟩

end PlotPerformance
